import Mathlib

set_option linter.unusedVariables false

/-!
Verification development for the turn-processing pipeline of the chat route
handler (src/route.ts): classification, tenant block-rule evaluation, history
rewriting, completion invocation, and inbound/outbound persistence.

The handler is embedded shallowly: external collaborators (persona fetch,
classifier, rule fetch, message store, completion engine) are inputs of the
pipeline function, each given as the result value the collaborator would
return; the pipeline body mirrors the control flow of the POST handler.
-/

namespace ChatRoute

/-- A chat message as in the route: a role and a text content (lines 28-33 of
route.ts copy exactly these two fields from the raw request messages). -/
structure Message where
  role : String
  content : String
  deriving DecidableEq

/-- A tenant block rule as fetched from the block_rule table and validated by
BlockRuleSchema: id, company scope, matcher text and substitution text. -/
structure BlockRule where
  id : Nat
  company_id : String
  matcher : String
  substitution : String
  deriving DecidableEq

/-- A triggered rule: the matched original text, its substitution, the rule
reference and the persisted message id it triggered on. -/
structure TriggeredRule where
  original : String
  substitution : String
  rule_id : Nat
  message_id : Nat
  deriving DecidableEq

/-- The classifier result attached to a message: category, complexity, topics
(shape of the categorizePrompt result used at lines 79-92 and 113). -/
structure Categorization where
  category : String
  complexity : String
  topics : List String
  deriving DecidableEq

/-- Whether the pattern occurs as a contiguous substring at some position. -/
def occursIn (pat : List Char) : List Char → Bool
  | [] => pat.isEmpty
  | c :: t => pat.isPrefixOf (c :: t) || occursIn pat t

/-- The dollar character starting a GetSubstitution pattern. -/
def dollarChar : Char := '$'

/-- The ampersand: dollar-ampersand expands to the matched substring. -/
def ampChar : Char := '&'

/-- The backquote, code point 96: dollar-backquote expands to the portion of
the string preceding the match. -/
def backquoteChar : Char := Char.ofNat 96

/-- The single quote, code point 39: dollar-quote expands to the portion of
the string following the match. -/
def quoteChar : Char := Char.ofNat 39

/-- ECMA-262 GetSubstitution for a STRING pattern (so the capture list is
empty and namedCaptures is undefined): scan the replacement template and
expand dollar-dollar to a dollar, dollar-ampersand to the matched substring,
dollar-backquote to the text before the match, and dollar-quote to the text
after the match; any other dollar (including dollar-digit, since a string
pattern has no capture groups, and a trailing dollar) is preserved literally
and scanning resumes after the dollar. JavaScript applies this expansion even
when replace is called with a plain string pattern. -/
def getSubstitution (matched before after : List Char) : List Char → List Char
  | [] => []
  | [c] => [c]
  | c :: d :: rest2 =>
    if c = dollarChar then
      if d = dollarChar then dollarChar :: getSubstitution matched before after rest2
      else if d = ampChar then matched ++ getSubstitution matched before after rest2
      else if d = backquoteChar then before ++ getSubstitution matched before after rest2
      else if d = quoteChar then after ++ getSubstitution matched before after rest2
      else dollarChar :: getSubstitution matched before after (d :: rest2)
    else c :: getSubstitution matched before after (d :: rest2)

/-- JavaScript String.prototype.replace with a string pattern, over character
lists: it replaces only the FIRST occurrence of the pattern, inserting the
GetSubstitution expansion of the replacement (matched text is the pattern
itself, the before/after context is the text around the match), and an empty
pattern matches at position 0. The before argument accumulates the scanned
prefix so the dollar-backquote expansion sees the text preceding the match.
This models the call at route.ts line 157,
newMessage.content.replace(rule.original, rule.substitution). -/
def jsReplaceList (pat rep : List Char) : List Char → List Char → List Char
  | before, [] => if pat.isEmpty then getSubstitution pat before [] rep else []
  | before, c :: t =>
    if pat.isPrefixOf (c :: t) then
      getSubstitution pat before (List.drop pat.length (c :: t)) rep
        ++ List.drop pat.length (c :: t)
    else c :: jsReplaceList pat rep (before ++ [c]) t

/-- String-level wrapper for jsReplaceList, starting with an empty scanned
prefix. -/
def jsReplace (s pat rep : String) : String :=
  String.mk (jsReplaceList pat.data rep.data [] s.data)

/-- Sequential application of the triggered rules to one content string, in
evaluation order: the forEach loop at route.ts lines 156-158 mutating
newMessage.content is a left fold. -/
def applyTriggered (content : String) (rules : List TriggeredRule) : String :=
  rules.foldl (fun c r => jsReplace c r.original r.substitution) content

/-- The history rewrite at route.ts lines 152-164: map over ALL messages,
fold every triggered rule over each message's content, and rebuild a fresh
role/content record (the inputs are never mutated). -/
def rewrite (messages : List Message) (triggeredRules : List TriggeredRule) :
    List Message :=
  messages.map fun message =>
    { role := message.role, content := applyTriggered message.content triggeredRules }

/-- Modelled from the spec: evaluateMessageAgainstRules lives in
utils/ruleHelpers, which is not part of the route source. Spec section 4.3:
iterate the rules in input order; for each rule test whether its matcher
occurs in message.content; if so append a TriggeredRule carrying the rule's
original/substitution pair and the persisted message id. Pure, no
short-circuiting, matching always on the original content. -/
def evaluateMessageAgainstRules (message : Message) (company_id user_id : String)
    (message_id : Nat) (rules : List BlockRule) : List TriggeredRule :=
  rules.filterMap fun rule =>
    if occursIn rule.matcher.data message.content.data then
      some { original := rule.matcher, substitution := rule.substitution,
             rule_id := rule.id, message_id := message_id }
    else none

/-- Modelled from the spec: createPersonaPrompt lives in
utils/personaAttributes, which is not part of the route source. Spec section
4.1: a deterministic pure function of the attribute levels that fails with a
ConfigurationError when the attribute set is empty or a level is outside
0..2. -/
def createPersonaPrompt (attrs : List (String × Nat)) : Except Unit String :=
  if attrs.isEmpty then Except.error ()
  else if attrs.all (fun a => a.snd ≤ 2) then
    Except.ok (String.intercalate "\n" (attrs.map fun a => a.fst ++ ": " ++ toString a.snd))
  else Except.error ()

/-- The pipeline states of the turn, in the vocabulary of the spec's
orchestration state machine. -/
inductive Step where
  | received
  | classified
  | rulesFetched
  | inboundPersisted
  | rulesEvaluated
  | historyRewritten
  | completionInvoked
  | outboundPersisted
  | done
  deriving DecidableEq

/-- Error kinds of the spec's taxonomy that the embedded handler can signal. -/
inductive ErrKind where
  | configurationError
  | dependencyError
  deriving DecidableEq

/-- A row of the chat_message table as the handler writes it: the fields the
claims are about (chat block, content, USER/BOT type, category). -/
structure PersistedMessage where
  chat_block_id : String
  content : String
  msgType : String
  category : String
  deriving DecidableEq

/-- The request body of the POST handler (route.ts lines 25-33). -/
structure PipelineInput where
  messages : List Message
  company_id : String
  user_id : String
  chat_block_id : String
  deriving DecidableEq

/-- The external collaborators of one turn, each given as the value its call
would return: persona row (attributes object or none), classifier, block_rule
select, chat_message inserts, and the completion call. -/
structure Externals where
  persona : Option (List (String × Nat))
  classify : String → Except Unit Categorization
  rules : Except Unit (List BlockRule)
  inboundInsert : Except Unit Nat
  completion : String → String → Except Unit String
  outboundInsert : Except Unit Unit

/-- Everything observable about one run of the handler: the states reached in
order, the chat_message rows written, the response body (the reply text, when
one is returned), whether the completion model was invoked and with which
chat history and input, the arguments of every classifier call, the triggered
rules, the rewritten history that the handler computes, and the error. -/
structure Outcome where
  trace : List Step
  inserts : List PersistedMessage
  response : Option String
  modelCalled : Bool
  sentHistory : Option String
  sentInput : Option String
  classifierCalls : List String
  triggered : List TriggeredRule
  newMessages : List Message
  err : Option ErrKind

/-- Stringification of one message for the chat history (route.ts line 20-22). -/
def formatMessage (m : Message) : String := m.role ++ ": " ++ m.content

/-- The last message of the request, messages[messages.length - 1]. The map at
route.ts lines 28-33 copies exactly the role and content fields, so the mapped
list equals the raw one and we read the last message off the request directly
(mappedMessages_eq below). The handler throws on an empty messages array; the
default here is never relevant to the claims, which are about nonempty turns. -/
def lastMessage (inp : PipelineInput) : Message :=
  inp.messages.getLastD { role := "", content := "" }

/-- Current input of the completion call, rawMessages[rawMessages.length - 1]
.content (route.ts line 69), also the text that is classified (line 79) and
persisted inbound (line 109). -/
def curInput (inp : PipelineInput) : String := (lastMessage inp).content

/-- Chat history of the completion call: rawMessages.slice(0, -1) formatted
and joined with newlines (route.ts lines 68 and 174). -/
def histInput (inp : PipelineInput) : String :=
  String.intercalate "\n" (inp.messages.dropLast.map formatMessage)

/-- The role/content copy at route.ts lines 28-33. -/
def mappedMessages (inp : PipelineInput) : List Message :=
  inp.messages.map fun m => { role := m.role, content := m.content }

/-- The USER row inserted at route.ts lines 104-118: the original last message
content as received, with the category computed from it. -/
def inboundRecord (inp : PipelineInput) (cat : Categorization) : PersistedMessage :=
  { chat_block_id := inp.chat_block_id, content := curInput inp,
    msgType := "USER", category := cat.category }

/-- The BOT row inserted at route.ts lines 179-192: the reply text, with the
category computed from the inbound message. -/
def outboundRecord (inp : PipelineInput) (cat : Categorization) (replyText : String) :
    PersistedMessage :=
  { chat_block_id := inp.chat_block_id, content := replyText,
    msgType := "BOT", category := cat.category }

/-- The POST handler of route.ts, step by step.

Control flow mirrored from the source: persona fetch (lines 36-45; on a
missing row the handler only logs and continues, then throws a TypeError at
Object.entries(personaData?.persona?.attributes!) on line 49-50, aborting the
turn before anything is persisted or invoked); persona prompt construction
(line 58); categorizePrompt on the last message content (line 79; a throw
aborts the turn); block_rule fetch (lines 94-102, returning null on error);
the USER chat_message insert of the ORIGINAL last message content (lines
104-125, returning null on error); rule evaluation with the persisted message
id (lines 127-137); the history rewrite into newMessages (lines 152-164) -
which the handler then never uses; the completion call chainB.call with the
chat history and current input built from the RAW messages at lines 68-69
(lines 166-176; the piped chain on line 166 is dead code); and the BOT
chat_message insert (lines 178-198; on insert error the handler logs and
returns undefined, so the caller gets no reply). The apiLogger calls (lines
81-92, 139-150) are fire-and-forget with no observable effect modelled. The
BlockRuleSchema.parse at line 127 validates each fetched rule; rules arrive
here already well-typed, so it is the identity. -/
def run (inp : PipelineInput) (ex : Externals) : Outcome :=
  match ex.persona with
  | none =>
    { trace := [Step.received], inserts := [], response := none,
      modelCalled := false, sentHistory := none, sentInput := none,
      classifierCalls := [], triggered := [], newMessages := [],
      err := some ErrKind.configurationError }
  | some attrs =>
    match createPersonaPrompt attrs with
    | Except.error _ =>
      { trace := [Step.received], inserts := [], response := none,
        modelCalled := false, sentHistory := none, sentInput := none,
        classifierCalls := [], triggered := [], newMessages := [],
        err := some ErrKind.configurationError }
    | Except.ok generatedPrompt =>
      match ex.classify (curInput inp) with
      | Except.error _ =>
        { trace := [Step.received], inserts := [], response := none,
          modelCalled := false, sentHistory := none, sentInput := none,
          classifierCalls := [curInput inp], triggered := [], newMessages := [],
          err := some ErrKind.dependencyError }
      | Except.ok categorization =>
        match ex.rules with
        | Except.error _ =>
          { trace := [Step.received, Step.classified], inserts := [],
            response := none, modelCalled := false, sentHistory := none,
            sentInput := none, classifierCalls := [curInput inp],
            triggered := [], newMessages := [],
            err := some ErrKind.dependencyError }
        | Except.ok rulesData =>
          match ex.inboundInsert with
          | Except.error _ =>
            { trace := [Step.received, Step.classified, Step.rulesFetched],
              inserts := [], response := none, modelCalled := false,
              sentHistory := none, sentInput := none,
              classifierCalls := [curInput inp], triggered := [],
              newMessages := [], err := some ErrKind.dependencyError }
          | Except.ok messageId =>
            match ex.completion (histInput inp) (curInput inp) with
            | Except.error _ =>
              { trace := [Step.received, Step.classified, Step.rulesFetched,
                  Step.inboundPersisted, Step.rulesEvaluated,
                  Step.historyRewritten, Step.completionInvoked],
                inserts := [inboundRecord inp categorization], response := none,
                modelCalled := true, sentHistory := some (histInput inp),
                sentInput := some (curInput inp),
                classifierCalls := [curInput inp],
                triggered := evaluateMessageAgainstRules (lastMessage inp)
                  inp.company_id inp.user_id messageId rulesData,
                newMessages := rewrite (mappedMessages inp)
                  (evaluateMessageAgainstRules (lastMessage inp)
                    inp.company_id inp.user_id messageId rulesData),
                err := some ErrKind.dependencyError }
            | Except.ok replyText =>
              match ex.outboundInsert with
              | Except.error _ =>
                { trace := [Step.received, Step.classified, Step.rulesFetched,
                    Step.inboundPersisted, Step.rulesEvaluated,
                    Step.historyRewritten, Step.completionInvoked],
                  inserts := [inboundRecord inp categorization],
                  response := none, modelCalled := true,
                  sentHistory := some (histInput inp),
                  sentInput := some (curInput inp),
                  classifierCalls := [curInput inp],
                  triggered := evaluateMessageAgainstRules (lastMessage inp)
                    inp.company_id inp.user_id messageId rulesData,
                  newMessages := rewrite (mappedMessages inp)
                    (evaluateMessageAgainstRules (lastMessage inp)
                      inp.company_id inp.user_id messageId rulesData),
                  err := some ErrKind.dependencyError }
              | Except.ok _ =>
                { trace := [Step.received, Step.classified, Step.rulesFetched,
                    Step.inboundPersisted, Step.rulesEvaluated,
                    Step.historyRewritten, Step.completionInvoked,
                    Step.outboundPersisted, Step.done],
                  inserts := [inboundRecord inp categorization,
                    outboundRecord inp categorization replyText],
                  response := some replyText, modelCalled := true,
                  sentHistory := some (histInput inp),
                  sentInput := some (curInput inp),
                  classifierCalls := [curInput inp],
                  triggered := evaluateMessageAgainstRules (lastMessage inp)
                    inp.company_id inp.user_id messageId rulesData,
                  newMessages := rewrite (mappedMessages inp)
                    (evaluateMessageAgainstRules (lastMessage inp)
                      inp.company_id inp.user_id messageId rulesData),
                  err := none }

/-- Whether the persona configuration of the turn is bad: row missing, or the
prompt builder rejects the attribute set. -/
def personaBad (ex : Externals) : Bool :=
  match ex.persona with
  | none => true
  | some attrs =>
    match createPersonaPrompt attrs with
    | Except.error _ => true
    | Except.ok _ => false

/-- Whether step a occurs strictly before an occurrence of step b. -/
def stepBefore (a b : Step) : List Step → Bool
  | [] => false
  | x :: t => if x = a then t.contains b else stepBefore a b t

/-- A pattern is a prefix of itself followed by anything. -/
theorem isPrefixOf_append_self (p b : List Char) : p.isPrefixOf (p ++ b) = true := by
  induction p with
  | nil => simp
  | cons c t ih => simp [List.isPrefixOf, ih]

/-- When the pattern occurs nowhere in the string, the replacement is the
identity, whatever the replacement template and the accumulated prefix hold
(a no-match replace never consults them). -/
theorem jsReplaceList_no_occ (pat rep : List Char) :
    ∀ s before : List Char,
      occursIn pat s = false → jsReplaceList pat rep before s = s := by
  intro s
  induction s with
  | nil =>
    intro before h
    simp [occursIn] at h
    simp [jsReplaceList, h]
  | cons c t ih =>
    intro before h
    simp [occursIn, Bool.or_eq_false_iff] at h
    simp [jsReplaceList, h.1, ih (before ++ [c]) h.2]

/-- The replacement rewrites exactly the first occurrence of the pattern:
if no occurrence starts before position a.length, the decomposition
a ++ p ++ b is rewritten to a, then the GetSubstitution expansion of the
replacement against match context (p, before ++ a, b), then b - whatever b
still contains. -/
theorem jsReplaceList_first (rep : List Char) :
    ∀ (a p b before : List Char),
      (∀ i, i < a.length → p.isPrefixOf (List.drop i (a ++ (p ++ b))) = false) →
      jsReplaceList p rep before (a ++ (p ++ b))
        = a ++ (getSubstitution p (before ++ a) b rep ++ b) := by
  intro a
  induction a with
  | nil =>
    intro p b before _
    simp only [List.nil_append, List.append_nil]
    cases hpb : p ++ b with
    | nil =>
      rcases List.append_eq_nil.mp hpb with ⟨hp, hb⟩
      subst hp; subst hb
      simp [jsReplaceList]
    | cons c t =>
      have hpre : p.isPrefixOf (c :: t) = true := by
        rw [← hpb]; exact isPrefixOf_append_self p b
      have hdrop : List.drop p.length (c :: t) = b := by
        rw [← hpb]; exact List.drop_left p b
      simp [jsReplaceList, hpre, hdrop]
  | cons c a' ih =>
    intro p b before h
    have hs : (c :: a') ++ (p ++ b) = c :: (a' ++ (p ++ b)) := List.cons_append c a' (p ++ b)
    have h0 : p.isPrefixOf (c :: (a' ++ (p ++ b))) = false := by
      have h' := h 0 (Nat.succ_pos a'.length)
      rw [List.drop_zero, hs] at h'
      exact h'
    have hrec : jsReplaceList p rep (before ++ [c]) (a' ++ (p ++ b))
        = a' ++ (getSubstitution p ((before ++ [c]) ++ a') b rep ++ b) := by
      apply ih
      intro i hi
      have h' := h (i + 1) (Nat.succ_lt_succ hi)
      rw [hs] at h'
      have hd : List.drop (i + 1) (c :: (a' ++ (p ++ b))) = List.drop i (a' ++ (p ++ b)) := rfl
      rw [hd] at h'
      exact h'
    rw [hs, List.cons_append]
    have hunfold : jsReplaceList p rep before (c :: (a' ++ (p ++ b))) =
        if p.isPrefixOf (c :: (a' ++ (p ++ b))) then
          getSubstitution p before (List.drop p.length (c :: (a' ++ (p ++ b)))) rep
            ++ List.drop p.length (c :: (a' ++ (p ++ b)))
        else c :: jsReplaceList p rep (before ++ [c]) (a' ++ (p ++ b)) := rfl
    rw [hunfold, h0]
    simp only [Bool.false_eq_true, if_false]
    rw [hrec]
    have hb : (before ++ [c]) ++ a' = before ++ (c :: a') := by
      rw [List.append_assoc, List.singleton_append]
    rw [hb]

/-- A rewrite whose per-message transformation is the identity returns the
history unchanged. -/
theorem rewrite_eq_self (l : List Message) (rules : List TriggeredRule)
    (h : ∀ m ∈ l, applyTriggered m.content rules = m.content) :
    rewrite l rules = l := by
  induction l with
  | nil => rfl
  | cons m t ih =>
    have hm := h m (List.mem_cons_self m t)
    have ht : rewrite t rules = t := ih fun x hx => h x (List.mem_cons_of_mem m hx)
    simp only [rewrite, List.map_cons] at ht ⊢
    rw [hm, ht]

/-- Folding rules whose originals occur nowhere in the content is the
identity on the content. -/
theorem applyTriggered_no_occ (c : String) (rules : List TriggeredRule)
    (h : ∀ r ∈ rules, occursIn r.original.data c.data = false) :
    applyTriggered c rules = c := by
  induction rules with
  | nil => rfl
  | cons r rs ih =>
    have hr := h r (List.mem_cons_self r rs)
    have hstep : jsReplace c r.original r.substitution = c := by
      unfold jsReplace
      rw [jsReplaceList_no_occ r.original.data r.substitution.data c.data [] hr]
    simp only [applyTriggered, List.foldl_cons]
    rw [hstep]
    exact ih fun x hx => h x (List.mem_cons_of_mem r hx)

/-- Every triggered rule produced by the rule engine carries the message id it
was given. -/
theorem evaluate_message_id (msg : Message) (cid uid : String) (mid : Nat)
    (rules : List BlockRule) :
    ∀ tr ∈ evaluateMessageAgainstRules msg cid uid mid rules, tr.message_id = mid := by
  intro tr htr
  unfold evaluateMessageAgainstRules at htr
  rcases List.mem_filterMap.mp htr with ⟨r, _, hr⟩
  by_cases hc : occursIn r.matcher.data msg.content.data = true
  · simp [hc] at hr
    rw [← hr]
  · simp [hc] at hr

/-- The role/content copy of the request messages is the identity. -/
theorem mappedMessages_eq (inp : PipelineInput) : mappedMessages inp = inp.messages := by
  unfold mappedMessages
  have hmap : ∀ l : List Message,
      l.map (fun m => ({ role := m.role, content := m.content } : Message)) = l := by
    intro l
    induction l with
    | nil => rfl
    | cons m t ih => rw [List.map_cons, ih]
  exact hmap inp.messages

/-- The rows a run writes: none, only the USER row, or the USER row followed
by the BOT row, the category always coming from classifying the current
input. -/
theorem run_inserts_cases (inp : PipelineInput) (ex : Externals) :
    (run inp ex).inserts = [] ∨
    ∃ cat, ex.classify (curInput inp) = Except.ok cat ∧
      ((run inp ex).inserts = [inboundRecord inp cat] ∨
       ∃ t, (run inp ex).inserts = [inboundRecord inp cat, outboundRecord inp cat t]) := by
  cases hper : ex.persona with
  | none => left; simp [run, hper]
  | some attrs =>
    cases hcp : createPersonaPrompt attrs with
    | error e => left; simp [run, hper, hcp]
    | ok gp =>
      cases hcl : ex.classify (curInput inp) with
      | error e => left; simp [run, hper, hcp, hcl]
      | ok cat =>
        cases hru : ex.rules with
        | error e => left; simp [run, hper, hcp, hcl, hru]
        | ok rulesData =>
          cases hins : ex.inboundInsert with
          | error e => left; simp [run, hper, hcp, hcl, hru, hins]
          | ok mid =>
            cases hcomp : ex.completion (histInput inp) (curInput inp) with
            | error e =>
              right
              exact ⟨cat, rfl, Or.inl (by simp [run, hper, hcp, hcl, hru, hins, hcomp])⟩
            | ok t =>
              cases hout : ex.outboundInsert with
              | error e =>
                right
                exact ⟨cat, rfl,
                  Or.inl (by simp [run, hper, hcp, hcl, hru, hins, hcomp, hout])⟩
              | ok u =>
                right
                refine ⟨cat, rfl, Or.inr ⟨t, ?_⟩⟩
                simp [run, hper, hcp, hcl, hru, hins, hcomp, hout]

/-- Every argument the run ever hands to the classifier is the current input
text; in particular the generated reply is never classified. -/
theorem run_classifier_calls (inp : PipelineInput) (ex : Externals) :
    ∀ s ∈ (run inp ex).classifierCalls, s = curInput inp := by
  intro s hs
  cases hper : ex.persona with
  | none => simp [run, hper] at hs
  | some attrs =>
    cases hcp : createPersonaPrompt attrs with
    | error e => simp [run, hper, hcp] at hs
    | ok gp =>
      cases hcl : ex.classify (curInput inp) with
      | error e => simp [run, hper, hcp, hcl] at hs; exact hs
      | ok cat =>
        cases hru : ex.rules with
        | error e => simp [run, hper, hcp, hcl, hru] at hs; exact hs
        | ok rulesData =>
          cases hins : ex.inboundInsert with
          | error e => simp [run, hper, hcp, hcl, hru, hins] at hs; exact hs
          | ok mid =>
            cases hcomp : ex.completion (histInput inp) (curInput inp) with
            | error e =>
              simp [run, hper, hcp, hcl, hru, hins, hcomp] at hs; exact hs
            | ok t =>
              cases hout : ex.outboundInsert with
              | error e =>
                simp [run, hper, hcp, hcl, hru, hins, hcomp, hout] at hs; exact hs
              | ok u =>
                simp [run, hper, hcp, hcl, hru, hins, hcomp, hout] at hs; exact hs

/-- C2 counterexample: with content "secret123 secret123" and one triggered
rule secret123 to [REDACTED], the rewrite leaves the second occurrence in
place, so it does NOT replace all occurrences. -/
theorem c2_rewrite_not_all_occurrences_cex :
    rewrite [{ role := "user", content := "secret123 secret123" }]
        [{ original := "secret123", substitution := "[REDACTED]",
           rule_id := 1, message_id := 7 }]
      = [{ role := "user", content := "[REDACTED] secret123" }]
    ∧ rewrite [{ role := "user", content := "secret123 secret123" }]
        [{ original := "secret123", substitution := "[REDACTED]",
           rule_id := 1, message_id := 7 }]
      ≠ [{ role := "user", content := "[REDACTED] [REDACTED]" }] := by
  constructor
  · decide
  · decide

/-- C2 (amended): the rewrite applies every triggered rule in evaluation order
and uniformly across every message of the history (each message is mapped to
its role with the folded substitutions applied to its content), but each
substitution replaces only the FIRST occurrence of the rule's original, and
the inserted text is the GetSubstitution expansion of the substitution
against the match (dollar-dollar, dollar-ampersand, dollar-backquote and
dollar-quote expanded; a substitution without a dollar is inserted
literally): a content of shape a ++ original ++ b with no occurrence starting
earlier is rewritten to a ++ getSubstitution original a b substitution ++ b,
with b untouched. -/
theorem c2_rewrite_replaces_first_occurrence
    (msgs : List Message) (rules : List TriggeredRule) (m : Message) (hm : m ∈ msgs)
    (a p b rep : List Char)
    (hfirst : ∀ i, i < a.length → p.isPrefixOf (List.drop i (a ++ (p ++ b))) = false) :
    ({ role := m.role, content := applyTriggered m.content rules } : Message)
        ∈ rewrite msgs rules
    ∧ jsReplaceList p rep [] (a ++ (p ++ b)) = a ++ (getSubstitution p a b rep ++ b) := by
  constructor
  · exact List.mem_map_of_mem _ hm
  · have h := jsReplaceList_first rep a p b [] hfirst
    rw [List.nil_append] at h
    exact h

/-- Witness for the amended C2 at a concrete input whose substitution holds a
dollar-ampersand pattern, so the GetSubstitution expansion is exercised. -/
theorem c2_rewrite_replaces_first_occurrence_witness :
    ({ role := "user",
       content := applyTriggered "hi hi"
         [{ original := "hi", substitution := "$&!", rule_id := 1, message_id := 2 }] } : Message)
        ∈ rewrite [{ role := "user", content := "hi hi" }]
            [{ original := "hi", substitution := "$&!", rule_id := 1, message_id := 2 }]
    ∧ jsReplaceList "hi".data "$&!".data [] ([] ++ ("hi".data ++ " hi".data))
        = [] ++ (getSubstitution "hi".data [] " hi".data "$&!".data ++ " hi".data) :=
  c2_rewrite_replaces_first_occurrence
    [{ role := "user", content := "hi hi" }]
    [{ original := "hi", substitution := "$&!", rule_id := 1, message_id := 2 }]
    { role := "user", content := "hi hi" } (by decide)
    [] "hi".data " hi".data "$&!".data
    (fun i hi => absurd hi (Nat.not_lt_zero i))

/-- C5 counterexample: with content "aaa" and the triggered rule aa to a, one
rewrite yields "aa" and a second rewrite yields "a", so rewriting an
already-rewritten history with the same triggered rules is NOT always a
no-op. -/
theorem c5_rewrite_not_idempotent_cex :
    rewrite (rewrite [{ role := "user", content := "aaa" }]
        [{ original := "aa", substitution := "a", rule_id := 1, message_id := 1 }])
        [{ original := "aa", substitution := "a", rule_id := 1, message_id := 1 }]
      ≠ rewrite [{ role := "user", content := "aaa" }]
        [{ original := "aa", substitution := "a", rule_id := 1, message_id := 1 }] := by
  decide

/-- C5 (amended): the rewrite is idempotent whenever the rewritten history
contains no residual occurrence of any triggered rule's original (in
particular whenever substitutions do not reintroduce or leave behind
originals): rewriting it again with the same triggered rules is a no-op. -/
theorem c5_rewrite_idempotent_no_residual (msgs : List Message)
    (rules : List TriggeredRule)
    (h : ∀ m ∈ rewrite msgs rules, ∀ r ∈ rules,
      occursIn r.original.data m.content.data = false) :
    rewrite (rewrite msgs rules) rules = rewrite msgs rules := by
  apply rewrite_eq_self
  intro m hm
  exact applyTriggered_no_occ m.content rules (h m hm)

/-- Witness for the amended C5 at a concrete input: after redacting, the
original no longer occurs, and the second rewrite is a no-op. -/
theorem c5_rewrite_idempotent_no_residual_witness :
    rewrite (rewrite [{ role := "user", content := "my password is secret123" }]
        [{ original := "secret123", substitution := "[REDACTED]",
           rule_id := 1, message_id := 9 }])
        [{ original := "secret123", substitution := "[REDACTED]",
           rule_id := 1, message_id := 9 }]
      = rewrite [{ role := "user", content := "my password is secret123" }]
        [{ original := "secret123", substitution := "[REDACTED]",
           rule_id := 1, message_id := 9 }] :=
  c5_rewrite_idempotent_no_residual
    [{ role := "user", content := "my password is secret123" }]
    [{ original := "secret123", substitution := "[REDACTED]",
       rule_id := 1, message_id := 9 }]
    (by decide)

/-- C9: an empty fetched rule set triggers nothing, and rewriting with zero
triggered rules leaves every message of the history byte-identical. -/
theorem c9_empty_rules_noop (msg : Message) (cid uid : String) (mid : Nat)
    (msgs : List Message) :
    evaluateMessageAgainstRules msg cid uid mid [] = []
    ∧ rewrite msgs [] = msgs := by
  constructor
  · rfl
  · exact rewrite_eq_self msgs [] (fun m hm => rfl)

/-- Scenario A request: one user message holding a password. -/
def aInput : PipelineInput :=
  { messages := [{ role := "user", content := "my password is secret123" }],
    company_id := "co", user_id := "u1", chat_block_id := "cb" }

/-- Scenario A collaborators: a persona, a classifier, one redaction rule,
and successful store and completion calls. -/
def aExternals : Externals :=
  { persona := some [("warmth", 1)],
    classify := fun _ =>
      Except.ok { category := "general", complexity := "low", topics := [] },
    rules := Except.ok [{ id := 1, company_id := "co", matcher := "secret123",
                          substitution := "[REDACTED]" }],
    inboundInsert := Except.ok 42,
    completion := fun h i => Except.ok "done",
    outboundInsert := Except.ok () }

/-- C1: in scenario A the rule triggers and the handler computes the
rewritten history with the password redacted, yet the completion call is
handed the ORIGINAL current input containing the password, because
chainB.call uses the pre-rewrite formattedPreviousMessages and
currentMessageContent of route.ts lines 68-69 and newMessages is never
used. -/
theorem c1_completion_receives_unrewritten_input :
    (run aInput aExternals).triggered ≠ []
    ∧ (run aInput aExternals).newMessages
        = [{ role := "user", content := "my password is [REDACTED]" }]
    ∧ (run aInput aExternals).sentInput = some "my password is secret123"
    ∧ (run aInput aExternals).sentInput ≠ some "my password is [REDACTED]" := by
  refine ⟨by decide, by decide, by decide, by decide⟩

/-- Scenario D request: one greeting message. -/
def dInput : PipelineInput :=
  { messages := [{ role := "user", content := "hello" }],
    company_id := "co", user_id := "u1", chat_block_id := "cb" }

/-- Scenario D collaborators: everything succeeds except the outbound
chat_message insert. -/
def dExternals : Externals :=
  { persona := some [("warmth", 1)],
    classify := fun _ =>
      Except.ok { category := "general", complexity := "low", topics := [] },
    rules := Except.ok [],
    inboundInsert := Except.ok 5,
    completion := fun h i => Except.ok "Hi there!",
    outboundInsert := Except.error () }

/-- C3 counterexample: the completion succeeds with a reply, the outbound
insert fails, and the handler returns NO response body to the caller (the
return on route.ts line 196), so the generated reply is discarded rather
than returned. -/
theorem c3_reply_dropped_on_outbound_failure_cex :
    dExternals.completion (histInput dInput) (curInput dInput)
        = Except.ok "Hi there!"
    ∧ (run dInput dExternals).modelCalled = true
    ∧ (run dInput dExternals).response = none := by
  refine ⟨rfl, by decide, by decide⟩

/-- C3 (amended): if the completion call succeeds but persisting the outbound
BOT message fails, the handler logs the error and returns no response: the
generated reply is discarded, only the inbound USER row remains persisted,
and the failure surfaces as an error, not as a reply with a warning. -/
theorem c3_outbound_failure_returns_no_reply (inp : PipelineInput) (ex : Externals)
    (attrs : List (String × Nat)) (gp : String) (cat : Categorization)
    (rulesData : List BlockRule) (mid : Nat) (t : String)
    (h1 : ex.persona = some attrs) (h2 : createPersonaPrompt attrs = Except.ok gp)
    (h3 : ex.classify (curInput inp) = Except.ok cat)
    (h4 : ex.rules = Except.ok rulesData) (h5 : ex.inboundInsert = Except.ok mid)
    (h6 : ex.completion (histInput inp) (curInput inp) = Except.ok t)
    (h7 : ex.outboundInsert = Except.error ()) :
    (run inp ex).response = none ∧ (run inp ex).modelCalled = true
    ∧ (run inp ex).inserts = [inboundRecord inp cat]
    ∧ (run inp ex).err = some ErrKind.dependencyError := by
  simp [run, h1, h2, h3, h4, h5, h6, h7]

/-- Witness for the amended C3 at the scenario D input. -/
theorem c3_outbound_failure_returns_no_reply_witness :
    (run dInput dExternals).response = none
    ∧ (run dInput dExternals).modelCalled = true
    ∧ (run dInput dExternals).inserts = [inboundRecord dInput
        { category := "general", complexity := "low", topics := [] }]
    ∧ (run dInput dExternals).err = some ErrKind.dependencyError :=
  c3_outbound_failure_returns_no_reply dInput dExternals [("warmth", 1)]
    "warmth: 1" { category := "general", complexity := "low", topics := [] }
    [] 5 "Hi there!" rfl rfl rfl rfl rfl rfl rfl

/-- C4: every persisted USER row of any run carries exactly the original
current input text as received, whatever the rules do: the insert at route.ts
lines 104-118 happens before the rewrite, and the rewrite builds fresh
message values without mutating the persisted content. -/
theorem c4_persisted_inbound_is_original (inp : PipelineInput) (ex : Externals)
    (rec : PersistedMessage) (h : rec ∈ (run inp ex).inserts)
    (hU : rec.msgType = "USER") :
    rec.content = curInput inp := by
  rcases run_inserts_cases inp ex with hnil | ⟨cat, hcl, hone | ⟨t, htwo⟩⟩
  · rw [hnil] at h
    cases h
  · rw [hone] at h
    have heq := List.mem_singleton.mp h
    subst heq
    rfl
  · rw [htwo] at h
    rcases List.mem_cons.mp h with heq | hmem
    · subst heq
      rfl
    · have heq := List.mem_singleton.mp hmem
      subst heq
      have hbot : (outboundRecord inp cat t).msgType = "BOT" := rfl
      rw [hbot] at hU
      exact absurd hU (by decide)

/-- Concrete request for the C4 witness. -/
def c4Inp : PipelineInput :=
  { messages := [{ role := "user", content := "my password is secret123" }],
    company_id := "co", user_id := "u2", chat_block_id := "cb4" }

/-- Concrete collaborators for the C4 witness, with a triggering rule. -/
def c4Ex : Externals :=
  { persona := some [("warmth", 2)],
    classify := fun _ =>
      Except.ok { category := "sensitive", complexity := "low", topics := [] },
    rules := Except.ok [{ id := 4, company_id := "co", matcher := "secret123",
                          substitution := "[REDACTED]" }],
    inboundInsert := Except.ok 11,
    completion := fun h i => Except.ok "noted",
    outboundInsert := Except.ok () }

/-- Witness for C4 at a concrete run whose rule triggers. -/
theorem c4_persisted_inbound_is_original_witness :
    (inboundRecord c4Inp
      { category := "sensitive", complexity := "low", topics := [] }).content
      = curInput c4Inp :=
  c4_persisted_inbound_is_original c4Inp c4Ex
    (inboundRecord c4Inp
      { category := "sensitive", complexity := "low", topics := [] })
    (by decide) (by decide)

/-- Concrete request for the C6 counterexample. -/
def c6Inp : PipelineInput :=
  { messages := [{ role := "user", content := "hi" }],
    company_id := "co", user_id := "u6", chat_block_id := "cb6" }

/-- Concrete collaborators for the C6 counterexample: a fully successful
turn. -/
def c6Ex : Externals :=
  { persona := some [("warmth", 0)],
    classify := fun _ =>
      Except.ok { category := "general", complexity := "low", topics := [] },
    rules := Except.ok [],
    inboundInsert := Except.ok 3,
    completion := fun h i => Except.ok "hey",
    outboundInsert := Except.ok () }

/-- C6 counterexample: in a fully successful turn the rules are fetched
STRICTLY BEFORE the inbound message is persisted (route.ts line 94 versus
line 104), the opposite of the claimed InboundPersisted-then-RulesFetched
order. -/
theorem c6_rules_fetched_before_inbound_persist_cex :
    stepBefore Step.rulesFetched Step.inboundPersisted (run c6Inp c6Ex).trace = true
    ∧ stepBefore Step.inboundPersisted Step.rulesFetched (run c6Inp c6Ex).trace
        = false := by
  decide

/-- C6 (amended): a fully successful turn passes through the fixed linear
order Received, Classified, RulesFetched, InboundPersisted, RulesEvaluated,
HistoryRewritten, CompletionInvoked, OutboundPersisted, Done - rule fetching
happens BEFORE inbound persistence - with no backward transition, and rule
evaluation receives the persisted message id on every triggered rule. -/
theorem c6_pipeline_order (inp : PipelineInput) (ex : Externals)
    (attrs : List (String × Nat)) (gp : String) (cat : Categorization)
    (rulesData : List BlockRule) (mid : Nat) (t : String)
    (h1 : ex.persona = some attrs) (h2 : createPersonaPrompt attrs = Except.ok gp)
    (h3 : ex.classify (curInput inp) = Except.ok cat)
    (h4 : ex.rules = Except.ok rulesData) (h5 : ex.inboundInsert = Except.ok mid)
    (h6 : ex.completion (histInput inp) (curInput inp) = Except.ok t)
    (h7 : ex.outboundInsert = Except.ok ()) :
    (run inp ex).trace = [Step.received, Step.classified, Step.rulesFetched,
      Step.inboundPersisted, Step.rulesEvaluated, Step.historyRewritten,
      Step.completionInvoked, Step.outboundPersisted, Step.done]
    ∧ ∀ tr ∈ (run inp ex).triggered, tr.message_id = mid := by
  constructor
  · simp [run, h1, h2, h3, h4, h5, h6, h7]
  · intro tr htr
    have hev : (run inp ex).triggered = evaluateMessageAgainstRules
        (lastMessage inp) inp.company_id inp.user_id mid rulesData := by
      simp [run, h1, h2, h3, h4, h5, h6, h7]
    rw [hev] at htr
    exact evaluate_message_id (lastMessage inp) inp.company_id inp.user_id mid
      rulesData tr htr

/-- Witness for the amended C6 at the concrete successful turn. -/
theorem c6_pipeline_order_witness :
    (run c6Inp c6Ex).trace = [Step.received, Step.classified, Step.rulesFetched,
      Step.inboundPersisted, Step.rulesEvaluated, Step.historyRewritten,
      Step.completionInvoked, Step.outboundPersisted, Step.done] :=
  (c6_pipeline_order c6Inp c6Ex [("warmth", 0)] "warmth: 0"
    { category := "general", complexity := "low", topics := [] } [] 3 "hey"
    rfl rfl rfl rfl rfl rfl rfl).1

/-- C7: when the classifier call fails, the turn aborts fatally: nothing at
all is persisted, no reply is returned, and the model is never invoked
(categorizePrompt at route.ts line 79 throws before any insert). -/
theorem c7_classifier_failure_aborts (inp : PipelineInput) (ex : Externals)
    (h : ex.classify (curInput inp) = Except.error ()) :
    (run inp ex).inserts = [] ∧ (run inp ex).response = none
    ∧ (run inp ex).modelCalled = false := by
  cases hper : ex.persona with
  | none => simp [run, hper]
  | some attrs =>
    cases hcp : createPersonaPrompt attrs with
    | error e => simp [run, hper, hcp]
    | ok gp => simp [run, hper, hcp, h]

/-- Concrete request for the C7 witness. -/
def c7Inp : PipelineInput :=
  { messages := [{ role := "user", content := "hi" }],
    company_id := "co", user_id := "u7", chat_block_id := "cb7" }

/-- Concrete collaborators for the C7 witness: the classifier fails. -/
def c7Ex : Externals :=
  { persona := some [("warmth", 1)],
    classify := fun _ => Except.error (),
    rules := Except.ok [],
    inboundInsert := Except.ok 1,
    completion := fun h i => Except.ok "x",
    outboundInsert := Except.ok () }

/-- Witness for C7 at a concrete run with a failing classifier. -/
theorem c7_classifier_failure_aborts_witness :
    (run c7Inp c7Ex).inserts = [] ∧ (run c7Inp c7Ex).response = none
    ∧ (run c7Inp c7Ex).modelCalled = false :=
  c7_classifier_failure_aborts c7Inp c7Ex rfl

/-- C8: a bad or missing persona (missing chat_block_persona row, or an
attribute set the prompt builder rejects) aborts the turn as a configuration
error before any model call, with no reply and nothing persisted; the caller
sees a failure response. -/
theorem c8_persona_failure_aborts_before_model (inp : PipelineInput)
    (ex : Externals) (h : personaBad ex = true) :
    (run inp ex).modelCalled = false ∧ (run inp ex).response = none
    ∧ (run inp ex).err = some ErrKind.configurationError
    ∧ (run inp ex).inserts = [] := by
  cases hper : ex.persona with
  | none => simp [run, hper]
  | some attrs =>
    cases hcp : createPersonaPrompt attrs with
    | error e => simp [run, hper, hcp]
    | ok gp => simp [personaBad, hper, hcp] at h

/-- Concrete request for the C8 witness. -/
def c8Inp : PipelineInput :=
  { messages := [{ role := "user", content := "hi" }],
    company_id := "co", user_id := "u8", chat_block_id := "cb8" }

/-- Concrete collaborators for the C8 witness: the persona row is missing. -/
def c8Ex : Externals :=
  { persona := none,
    classify := fun _ =>
      Except.ok { category := "general", complexity := "low", topics := [] },
    rules := Except.ok [],
    inboundInsert := Except.ok 1,
    completion := fun h i => Except.ok "x",
    outboundInsert := Except.ok () }

/-- Witness for C8 at a concrete run with a missing persona. -/
theorem c8_persona_failure_aborts_before_model_witness :
    (run c8Inp c8Ex).modelCalled = false ∧ (run c8Inp c8Ex).response = none
    ∧ (run c8Inp c8Ex).err = some ErrKind.configurationError
    ∧ (run c8Inp c8Ex).inserts = [] :=
  c8_persona_failure_aborts_before_model c8Inp c8Ex rfl

/-- C10: every persisted BOT row carries the category that the classifier
computed from the inbound current input, and the classifier is only ever
called on that inbound text - the generated reply is never classified. -/
theorem c10_outbound_category_from_inbound (inp : PipelineInput) (ex : Externals)
    (rec : PersistedMessage) (cat : Categorization)
    (hcl : ex.classify (curInput inp) = Except.ok cat)
    (h : rec ∈ (run inp ex).inserts) (hB : rec.msgType = "BOT") :
    rec.category = cat.category
    ∧ (run inp ex).classifierCalls = [curInput inp] := by
  cases hper : ex.persona with
  | none => simp [run, hper] at h
  | some attrs =>
    cases hcp : createPersonaPrompt attrs with
    | error e => simp [run, hper, hcp] at h
    | ok gp =>
      cases hru : ex.rules with
      | error e => simp [run, hper, hcp, hcl, hru] at h
      | ok rulesData =>
        cases hins : ex.inboundInsert with
        | error e => simp [run, hper, hcp, hcl, hru, hins] at h
        | ok mid =>
          cases hcomp : ex.completion (histInput inp) (curInput inp) with
          | error e =>
            simp [run, hper, hcp, hcl, hru, hins, hcomp] at h
            subst h
            have husr : (inboundRecord inp cat).msgType = "USER" := rfl
            rw [husr] at hB
            exact absurd hB (by decide)
          | ok t =>
            cases hout : ex.outboundInsert with
            | error e =>
              simp [run, hper, hcp, hcl, hru, hins, hcomp, hout] at h
              subst h
              have husr : (inboundRecord inp cat).msgType = "USER" := rfl
              rw [husr] at hB
              exact absurd hB (by decide)
            | ok u =>
              simp only [run, hper, hcp, hcl, hru, hins, hcomp, hout] at h ⊢
              rcases List.mem_cons.mp h with heq | hmem
              · subst heq
                have husr : (inboundRecord inp cat).msgType = "USER" := rfl
                rw [husr] at hB
                exact absurd hB (by decide)
              · have heq := List.mem_singleton.mp hmem
                subst heq
                exact ⟨rfl, trivial⟩

/-- Concrete request for the C10 witness. -/
def c10Inp : PipelineInput :=
  { messages := [{ role := "user", content := "question" }],
    company_id := "co", user_id := "u10", chat_block_id := "cb10" }

/-- Concrete collaborators for the C10 witness: a fully successful turn. -/
def c10Ex : Externals :=
  { persona := some [("warmth", 1)],
    classify := fun _ =>
      Except.ok { category := "faq", complexity := "mid", topics := [] },
    rules := Except.ok [],
    inboundInsert := Except.ok 21,
    completion := fun h i => Except.ok "answer",
    outboundInsert := Except.ok () }

/-- Witness for C10 at a concrete successful turn. -/
theorem c10_outbound_category_from_inbound_witness :
    (outboundRecord c10Inp
        { category := "faq", complexity := "mid", topics := [] } "answer").category
      = ({ category := "faq", complexity := "mid", topics := [] } : Categorization).category
    ∧ (run c10Inp c10Ex).classifierCalls = [curInput c10Inp] :=
  c10_outbound_category_from_inbound c10Inp c10Ex
    (outboundRecord c10Inp
      { category := "faq", complexity := "mid", topics := [] } "answer")
    { category := "faq", complexity := "mid", topics := [] }
    rfl (by decide) (by decide)

end ChatRoute
